import Mathlib

/-!
Verification of the point-cloud loading and camera-trajectory code of the
`blender_renderer` repository.

The Python source is shallowly embedded:

* `load_ply_file` models the hand-written text PLY loader in
  `render_full_video.py` (lines 31-92).
* `load_ply` / `get_ply_info` model `PLYProcessor.load_ply` and
  `PLYProcessor.get_ply_info` in
  `src/blender_pointcloud_renderer/ply_processor.py`; the third-party
  `plyfile.PlyData.read` call is abstracted as an `Except`-valued input that
  either fails (any exception) or yields the per-column vertex data.
* `set_trajectory` / `traj_get_info` model `CameraTrajectory.set_trajectory`
  and `CameraTrajectory.get_info` in
  `src/blender_pointcloud_renderer/camera_trajectory.py`.
* `euler_to_rotation_matrix` models
  `CameraTrajectory.euler_to_rotation_matrix`.
* `evaluate` is modelled from the spec (section 4.2): the repository imports
  `blender_script_generator.py`, which holds the trajectory evaluation, but
  that file is not part of the sources.

Numeric values are modelled as exact rationals (`ℚ`): Python floats are an
approximation of this ideal semantics, and none of the verified claims
depends on rounding.  Python exceptions are modelled with `Except`; a caught
exception corresponds to matching on `.error`.  numpy array dtypes are
tracked symbolically with `Dtype`.
-/

/-- A 3-component value: a point, a color triple, or an Euler-angle triple. -/
abbrev V3 := ℚ × ℚ × ℚ

/-- Python exceptions raised by the loaders: `FileNotFoundError` from `open`,
`ValueError` from `int()` / `float()` / numpy reductions on empty arrays. -/
inductive PyErr
  | fileNotFound
  | valueError
deriving DecidableEq

/-- Whitespace characters recognized by Python `str.strip()` / `str.split()`
(restricted to the ones that occur in PLY text files). -/
def isSpaceChar (c : Char) : Bool :=
  c = ' ' || c = '\t' || c = '\n' || c = '\r'

/-- Python `str.strip()` on a line represented as a character list. -/
def pyStrip (cs : List Char) : List Char :=
  ((cs.dropWhile isSpaceChar).reverse.dropWhile isSpaceChar).reverse

/-- Helper for `pySplitChars`: accumulate the current word (reversed). -/
def pySplitAux : List Char → List Char → List (List Char)
  | [], acc => if acc.isEmpty then [] else [acc.reverse]
  | c :: rest, acc =>
    if isSpaceChar c then
      if acc.isEmpty then pySplitAux rest [] else acc.reverse :: pySplitAux rest []
    else pySplitAux rest (c :: acc)

/-- Python `str.split()` with no argument: split on whitespace runs and drop
empty fields. -/
def pySplitChars (cs : List Char) : List (List Char) :=
  pySplitAux cs []

/-- Numeric value of a decimal digit list (no validation). -/
def digitsNat (cs : List Char) : Nat :=
  cs.foldl (fun a c => 10 * a + (c.toNat - 48)) 0

/-- Whether every character is a decimal digit. -/
def allDigits (cs : List Char) : Bool :=
  cs.all (·.isDigit)

/-- Python `int(s)` on the string body after the optional sign: a nonempty
run of decimal digits, `none` on anything else (i.e. `ValueError`). -/
def pyIntCore (cs : List Char) : Option Nat :=
  if cs.isEmpty then none
  else if allDigits cs then some (digitsNat cs) else none

/-- Python `int(s)`: optional sign and a nonempty digit run; `none` models a
raised `ValueError`. -/
def pyInt (cs : List Char) : Option Int :=
  match cs with
  | '-' :: rest => (pyIntCore rest).map (fun n => -(n : Int))
  | '+' :: rest => (pyIntCore rest).map (fun n => (n : Int))
  | _ => (pyIntCore cs).map (fun n => (n : Int))

/-- Python `float(s)` on the unsigned body: `digits`, `digits.digits`,
`digits.` or `.digits`; `none` models a raised `ValueError`.  (Python also
accepts exponent notation and the infinities; the repository's files use
only plain decimal notation.) -/
def pyFloatCore (cs : List Char) : Option ℚ :=
  let ip := cs.takeWhile (· != '.')
  let rest := cs.dropWhile (· != '.')
  match rest with
  | [] =>
    if ip.isEmpty then none
    else if allDigits ip then some ((digitsNat ip : ℚ)) else none
  | _ :: fp =>
    if fp.any (· = '.') then none
    else if ip.isEmpty && fp.isEmpty then none
    else if allDigits ip && allDigits fp then
      some ((digitsNat ip : ℚ) + (digitsNat fp : ℚ) / (10 : ℚ) ^ fp.length)
    else none

/-- Python `float(s)`: optional sign then the unsigned decimal body. -/
def pyFloat (cs : List Char) : Option ℚ :=
  match cs with
  | '-' :: rest => (pyFloatCore rest).map (fun q => -q)
  | '+' :: rest => pyFloatCore rest
  | _ => pyFloatCore cs

/-- Symbolic numpy dtype, as far as the repository's arrays need. -/
inductive Dtype
  | uint8
  | float32
  | float64
deriving DecidableEq

/-- Promotion rank: `np.result_type` forms the maximum of the ranks for the
dtypes occurring here. -/
def Dtype.rank : Dtype → Nat
  | .uint8 => 0
  | .float32 => 1
  | .float64 => 2

/-- numpy dtype promotion (`np.result_type`) restricted to the dtypes the
repository produces. -/
def promote (a b : Dtype) : Dtype :=
  if a.rank ≤ b.rank then b else a

/-- A two-dimensional N x 3 numpy array: a dtype together with its rows. -/
structure NpArray where
  dtype : Dtype
  rows : List V3
deriving DecidableEq

/-- One header scan step of `load_ply_file` (render_full_video.py lines
51-61): Python iterates over all lines tracking `vertex_count` (from the
`element vertex` line, whose last whitespace-separated token goes through
`int()`), `has_colors` (a line starting with `property uchar red`) and
breaks at `end_header`, returning `header_end = i + 1`; if no `end_header`
line exists, `header_end` keeps its initial value `0`.  A failing `int()`
propagates as `ValueError`. -/
def scanHeaderAux : List (List Char) → Nat → Int → Bool → Except PyErr (Nat × Int × Bool)
  | [], _, vc, hc => .ok (0, vc, hc)
  | l :: rest, i, vc, hc =>
    let s := pyStrip l
    if ("element vertex".data).isPrefixOf s then
      match pyInt ((pySplitChars s).getLastD []) with
      | none => .error .valueError
      | some n => scanHeaderAux rest (i + 1) n hc
    else if ("property uchar red".data).isPrefixOf s then
      scanHeaderAux rest (i + 1) vc true
    else if s = "end_header".data then
      .ok (i + 1, vc, hc)
    else
      scanHeaderAux rest (i + 1) vc hc

/-- Header scan of `load_ply_file` starting from the state of
render_full_video.py lines 47-49 (`header_end = 0`, `vertex_count = 0`,
`has_colors = False`). -/
def scanHeader (lines : List (List Char)) : Except PyErr (Nat × Int × Bool) :=
  scanHeaderAux lines 0 0 false

/-- One body record of `load_ply_file` (render_full_video.py lines 70-83):
split the stripped line; with fewer than 3 fields nothing is appended
(`.ok none`); otherwise the first three fields go through `float()` (a
failure propagates as `ValueError`); when colors were declared and the
record has at least 6 fields, fields 3-5 go through `int()` and the color
is the triple divided by 255.0; when colors were declared but the record is
short, the color is opaque white. -/
def parseStep (hc : Bool) (l : List Char) : Except PyErr (Option (V3 × Option V3)) :=
  let parts := pySplitChars (pyStrip l)
  if 3 ≤ parts.length then
    match pyFloat (parts.getD 0 []) with
    | none => .error .valueError
    | some x =>
      match pyFloat (parts.getD 1 []) with
      | none => .error .valueError
      | some y =>
        match pyFloat (parts.getD 2 []) with
        | none => .error .valueError
        | some z =>
          if hc then
            if 6 ≤ parts.length then
              match pyInt (parts.getD 3 []) with
              | none => .error .valueError
              | some r =>
                match pyInt (parts.getD 4 []) with
                | none => .error .valueError
                | some g =>
                  match pyInt (parts.getD 5 []) with
                  | none => .error .valueError
                  | some b =>
                    .ok (some ((x, y, z),
                      some ((r : ℚ) / 255, (g : ℚ) / 255, (b : ℚ) / 255)))
            else .ok (some ((x, y, z), some (1, 1, 1)))
          else .ok (some ((x, y, z), none))
  else .ok none

/-- Body loop of `load_ply_file` (render_full_video.py lines 66-83): read at
most `vertex_count` records, breaking silently when the file ends first, and
collect the `points` and `colors` lists. -/
def parseBody (hc : Bool) : List (List Char) → Nat → Except PyErr (List V3 × List V3)
  | _, 0 => .ok ([], [])
  | [], _ + 1 => .ok ([], [])
  | l :: rest, n + 1 =>
    match parseStep hc l with
    | .error e => .error e
    | .ok none =>
      parseBody hc rest n
    | .ok (some (pt, c?)) =>
      match parseBody hc rest n with
      | .error e => .error e
      | .ok (ps, cs) =>
        .ok (pt :: ps, match c? with | some c => c :: cs | none => cs)

/-- The text PLY loader `load_ply_file` of render_full_video.py (lines
31-92).  The file system is a partial map from paths to the file's lines; a
missing path models the `FileNotFoundError` raised by `open`.  The final
`np.array` calls build float64 arrays (the numpy default for Python float
lists, including the empty list), and an empty `colors` list yields `None`. -/
def load_ply_file (fs : String → Option (List (List Char))) (path : String) :
    Except PyErr (NpArray × Option NpArray) :=
  match fs path with
  | none => .error .fileNotFound
  | some lines =>
    match scanHeader lines with
    | .error e => .error e
    | .ok (headerEnd, vc, hc) =>
      match parseBody hc (lines.drop headerEnd) vc.toNat with
      | .error e => .error e
      | .ok (pts, cols) =>
        .ok (⟨.float64, pts⟩, if cols.isEmpty then none else some ⟨.float64, cols⟩)

/-- One column of a plyfile vertex element: its numpy dtype and its values. -/
structure Col where
  dtype : Dtype
  data : List ℚ
deriving DecidableEq

/-- The vertex element as `plyfile.PlyData.read` delivers it: the declared
property names in order and the six columns the repository accesses.  The
color columns are meaningful only when the corresponding properties are
declared.  plyfile guarantees that every column has the element's declared
length. -/
structure PlyVertexData where
  properties : List String
  x : Col
  y : Col
  z : Col
  red : Col
  green : Col
  blue : Col

/-- Pair up three equally long columns into rows (`np.column_stack` data;
numpy rejects unequal lengths, which the equal-length theorems assume). -/
def zip3Q : List ℚ → List ℚ → List ℚ → List V3
  | a :: as_, b :: bs, c :: cs => (a, b, c) :: zip3Q as_ bs cs
  | _, _, _ => []

/-- `np.column_stack` of three columns: the data is paired into rows and the
result dtype is the promotion of the inputs' dtypes. -/
def columnStack3 (a b c : Col) : NpArray :=
  ⟨promote (promote a.dtype b.dtype) c.dtype, zip3Q a.data b.data c.data⟩

/-- Flatten an N x 3 array's rows into the element list, row-major. -/
def flattenRows (rows : List V3) : List ℚ :=
  rows.foldr (fun v acc => v.1 :: v.2.1 :: v.2.2 :: acc) []

/-- numpy `min` of a list; `none` models the `ValueError` numpy raises on an
empty array. -/
def listMin : List ℚ → Option ℚ
  | [] => none
  | x :: xs => some (xs.foldl min x)

/-- numpy `max` of a list; `none` models the `ValueError` on an empty array. -/
def listMax : List ℚ → Option ℚ
  | [] => none
  | x :: xs => some (xs.foldl max x)

/-- numpy `mean` of a list (only used on nonempty lists). -/
def listMean (xs : List ℚ) : ℚ :=
  xs.sum / (xs.length : ℚ)

/-- `arr.max()` over all entries of an N x 3 array. -/
def arrMax (a : NpArray) : Option ℚ :=
  listMax (flattenRows a.rows)

/-- Whether the vertex element declares the three 8-bit color properties
(ply_processor.py line 43 and line 97, the same test). -/
def hasColorProps (v : PlyVertexData) : Bool :=
  v.properties.contains "red" && v.properties.contains "green"
    && v.properties.contains "blue"

/-- ply_processor.py line 51: `colors.astype(np.float32) / 255.0` — the cast
makes the dtype float32 and the division rescales every entry. -/
def normalizeColors (c : NpArray) : NpArray :=
  ⟨.float32, c.rows.map (fun v => (v.1 / 255, v.2.1 / 255, v.2.2 / 255))⟩

/-- `PLYProcessor.load_ply` (ply_processor.py lines 19-57).  `read` is the
outcome of `plyfile.PlyData.read` (`.error` = it raised).  The whole body
sits in a `try` whose `except Exception` returns `(None, None)`; inside the
`try`, the only further failure is `colors.max()` on an empty color array.
Colors are divided by 255.0 only when `colors.max() > 1.0`. -/
def load_ply (read : Except PyErr PlyVertexData) : Option NpArray × Option NpArray :=
  match read with
  | .error _ => (none, none)
  | .ok v =>
    let points := columnStack3 v.x v.y v.z
    if hasColorProps v then
      let colors := columnStack3 v.red v.green v.blue
      match arrMax colors with
      | none => (none, none)
      | some m =>
        if 1 < m then (some points, some (normalizeColors colors))
        else (some points, some colors)
    else (some points, none)

/-- The per-axis bounds dictionary of `get_ply_info` (ply_processor.py lines
81-91). -/
structure Bounds where
  min_x : ℚ
  max_x : ℚ
  min_y : ℚ
  max_y : ℚ
  min_z : ℚ
  max_z : ℚ
  center_x : ℚ
  center_y : ℚ
  center_z : ℚ
deriving DecidableEq

/-- The bounds computation of `get_ply_info` (ply_processor.py lines 76-91):
min, max and mean of each coordinate column; an empty column makes the numpy
reductions raise `ValueError` (caught by the surrounding handler). -/
def computeBounds (xs ys zs : List ℚ) : Except PyErr Bounds :=
  match listMin xs, listMax xs, listMin ys, listMax ys, listMin zs, listMax zs with
  | some a, some b, some c, some d, some e, some f =>
    .ok ⟨a, b, c, d, e, f, listMean xs, listMean ys, listMean zs⟩
  | _, _, _, _, _, _ => .error .valueError

/-- The info dictionary of `get_ply_info` (ply_processor.py lines 93-101);
`bounds = none` models the empty dictionary of the failure record. -/
structure PlyInfo where
  file_path : String
  file_size : Nat
  point_count : Nat
  has_colors : Bool
  has_alpha : Bool
  properties : List String
  bounds : Option Bounds
deriving DecidableEq

/-- The body of the `try` block of `get_ply_info` (ply_processor.py lines
69-103): read the file, compute the bounds, stat the file size and build the
info record.  `stat` is the outcome of `file_path.stat().st_size`.
`len(vertices)` is the element count, which equals the column length. -/
def innerInfo (path : String) (read : Except PyErr PlyVertexData)
    (stat : Except PyErr Nat) : Except PyErr PlyInfo :=
  match read with
  | .error e => .error e
  | .ok v =>
    match computeBounds v.x.data v.y.data v.z.data with
    | .error e => .error e
    | .ok b =>
      match stat with
      | .error e => .error e
      | .ok s =>
        .ok ⟨path, s, v.x.data.length, hasColorProps v,
          v.properties.contains "alpha", v.properties, some b⟩

/-- The zeroed/empty info record returned by the `except` handler of
`get_ply_info` (ply_processor.py lines 105-115). -/
def emptyInfo (path : String) : PlyInfo :=
  ⟨path, 0, 0, false, false, [], none⟩

/-- `PLYProcessor.get_ply_info` (ply_processor.py lines 59-115): the `try`
body with the catch-all `except Exception` that degrades to the zeroed
record.  The function is total: no error escapes. -/
def get_ply_info (path : String) (read : Except PyErr PlyVertexData)
    (stat : Except PyErr Nat) : PlyInfo :=
  match innerInfo path read stat with
  | .ok i => i
  | .error _ => emptyInfo path

/-- Bounds computed from the position array returned by `load_ply`, following
the spec's words for `get_info`: "must produce bounds identical ... to
computing them from the result of `load`". -/
def boundsFromPositions (rows : List V3) : Option Bounds :=
  match computeBounds (rows.map (fun v => v.1)) (rows.map (fun v => v.2.1))
      (rows.map (fun v => v.2.2)) with
  | .ok b => some b
  | .error _ => none

/-- A keyframe of a custom trajectory: time in [0,1], position, rotation
(spec section 3). -/
structure Keyframe where
  time : ℚ
  position : V3
  rotation : V3
deriving DecidableEq

/-- The keys that `set_trajectory`'s setup helpers ever store in the
`trajectory_params` dictionary (camera_trajectory.py lines 39-78). -/
inductive PKey
  | start_pos
  | end_pos
  | look_at
  | fixed_rotation
  | center
  | radius
  | height
  | start_angle
  | end_angle
  | keyframes
deriving DecidableEq

/-- The values stored in `trajectory_params`: plain triples, optional triples
(Python `None` or a tuple), numbers, and keyframe lists. -/
inductive PVal
  | v3 (v : V3)
  | ov3 (v : Option V3)
  | num (q : ℚ)
  | frames (ks : List Keyframe)
deriving DecidableEq

/-- The mutable state of a `CameraTrajectory` object: `trajectory_type`
(initially `None`) and the `trajectory_params` dictionary (initially empty),
camera_trajectory.py lines 17-18. -/
structure TrajState where
  trajectory_type : Option String
  trajectory_params : PKey → Option PVal

/-- The state right after `CameraTrajectory.__init__`. -/
def initState : TrajState :=
  ⟨none, fun _ => none⟩

/-- Python `dict.update`: keys present in the new dictionary win, all other
keys keep their old value. -/
def dictUpdate (old new : PKey → Option PVal) : PKey → Option PVal :=
  fun k => match new k with
  | some v => some v
  | none => old k

/-- The keyword arguments accepted by the three setup helpers; `none` means
the caller did not pass the keyword, so the Python default applies. -/
structure Kwargs where
  start_pos : Option V3 := none
  end_pos : Option V3 := none
  look_at : Option V3 := none
  fixed_rotation : Option V3 := none
  center : Option V3 := none
  radius : Option ℚ := none
  height : Option ℚ := none
  start_angle : Option ℚ := none
  end_angle : Option ℚ := none
  keyframes : Option (List Keyframe) := none

/-- The float value of `2 * math.pi`, the default `end_angle`
(camera_trajectory.py line 58), as a decimal rational. -/
def twoPiFloat : ℚ := 6.283185307179586

/-- The dictionary `_setup_linear_trajectory` passes to `update`
(camera_trajectory.py lines 46-51), with the defaults of lines 40-43. -/
def linearDict (kw : Kwargs) : PKey → Option PVal
  | .start_pos => some (.v3 (kw.start_pos.getD (0, 0, 5)))
  | .end_pos => some (.v3 (kw.end_pos.getD (5, 0, 5)))
  | .look_at => some (.ov3 kw.look_at)
  | .fixed_rotation => some (.ov3 kw.fixed_rotation)
  | _ => none

/-- The dictionary `_setup_circular_trajectory` passes to `update`
(camera_trajectory.py lines 62-69): `look_at or center` makes the stored
look-at default to the center (a tuple is always truthy, `None` is falsy). -/
def circularDict (kw : Kwargs) : PKey → Option PVal :=
  let c := kw.center.getD (0, 0, 0)
  fun k => match k with
  | .center => some (.v3 c)
  | .radius => some (.num (kw.radius.getD 5))
  | .height => some (.num (kw.height.getD 2))
  | .start_angle => some (.num (kw.start_angle.getD 0))
  | .end_angle => some (.num (kw.end_angle.getD twoPiFloat))
  | .look_at => some (.v3 (kw.look_at.getD c))
  | _ => none

/-- The dictionary `_setup_custom_trajectory` passes to `update`
(camera_trajectory.py lines 71-78): a missing `keyframes` keyword stores the
empty list. -/
def customDict (kw : Kwargs) : PKey → Option PVal
  | .keyframes => some (.frames (kw.keyframes.getD []))
  | _ => none

/-- `CameraTrajectory.set_trajectory` (camera_trajectory.py lines 20-37):
`self.trajectory_type = trajectory_type` happens first, then the dispatch;
an unknown type raises `ValueError` with the type already assigned and the
parameter dictionary untouched.  The returned pair is the post-call object
state and the raised exception, if any. -/
def set_trajectory (st : TrajState) (ty : String) (kw : Kwargs) :
    TrajState × Option PyErr :=
  let st1 : TrajState := ⟨some ty, st.trajectory_params⟩
  if ty = "linear" then
    (⟨st1.trajectory_type, dictUpdate st1.trajectory_params (linearDict kw)⟩, none)
  else if ty = "circular" then
    (⟨st1.trajectory_type, dictUpdate st1.trajectory_params (circularDict kw)⟩, none)
  else if ty = "custom" then
    (⟨st1.trajectory_type, dictUpdate st1.trajectory_params (customDict kw)⟩, none)
  else
    (st1, some .valueError)

/-- `CameraTrajectory.get_info` (camera_trajectory.py lines 80-85): the pair
of the current type and the whole parameter dictionary. -/
def traj_get_info (st : TrajState) : Option String × (PKey → Option PVal) :=
  (st.trajectory_type, st.trajectory_params)

/-- Opaque real-valued primitives (cosine, sine, atan2, square root) used by
the modelled trajectory evaluator; Python's `math` module provides float
approximations of these, and no verified claim depends on their values. -/
structure Trig where
  cos : ℚ → ℚ
  sin : ℚ → ℚ
  atan2 : ℚ → ℚ → ℚ
  sqrt : ℚ → ℚ

/-- A camera pose: position plus (pitch, yaw, roll) rotation (spec section 3). -/
structure CameraPose where
  position : V3
  rotation : V3
deriving DecidableEq

/-- The error of the modelled evaluator (spec section 7:
`InvalidTrajectoryError`). -/
inductive TrajErr
  | invalidTrajectory
deriving DecidableEq

/-- Modelled from the spec: a `TrajectorySpec` tagged variant (spec section
3), needed because the evaluation code lives in `blender_script_generator.py`
which is not among the sources. -/
inductive TrajectorySpec
  | linear (startPos endPos : V3) (lookAt : Option V3) (fixedRot : Option V3)
  | circular (center : V3) (radius height startAngle endAngle : ℚ) (lookAt : V3)
  | custom (keyframes : List Keyframe)

/-- Componentwise linear interpolation `a + t * (b - a)` (spec section 4.2). -/
def lerpV (a b : V3) (t : ℚ) : V3 :=
  (a.1 + t * (b.1 - a.1), a.2.1 + t * (b.2.1 - a.2.1), a.2.2 + t * (b.2.2 - a.2.2))

/-- Modelled from the spec: the look-at rule of section 4.2 — yaw from the
horizontal offset, pitch from the vertical offset against the horizontal
distance, roll zero. -/
def lookAtRotation (t : Trig) (p tgt : V3) : V3 :=
  let dx := tgt.1 - p.1
  let dy := tgt.2.1 - p.2.1
  let dz := tgt.2.2 - p.2.2
  (t.atan2 dz (t.sqrt (dx ^ 2 + dy ^ 2)), t.atan2 dy dx, 0)

/-- Insert a keyframe into a list sorted ascending by time. -/
def insertKF (k : Keyframe) : List Keyframe → List Keyframe
  | [] => [k]
  | k2 :: rest => if k.time ≤ k2.time then k :: k2 :: rest else k2 :: insertKF k rest

/-- Sort keyframes ascending by time (spec section 4.2). -/
def sortKF : List Keyframe → List Keyframe
  | [] => []
  | k :: rest => insertKF k (sortKF rest)

/-- Modelled from the spec: evaluate a sorted keyframe list at a progress
value — clamp below the first and above the last keyframe, interpolate
between the bracketing pair, and with a single keyframe return its pose for
every progress (spec section 4.2). -/
def evalKeyframes (k : Keyframe) : List Keyframe → ℚ → CameraPose
  | [], _ => ⟨k.position, k.rotation⟩
  | k2 :: rest, p =>
    if p ≤ k.time then ⟨k.position, k.rotation⟩
    else if p ≤ k2.time then
      let t := (p - k.time) / (k2.time - k.time)
      ⟨lerpV k.position k2.position t, lerpV k.rotation k2.rotation t⟩
    else evalKeyframes k2 rest p

/-- Modelled from the spec: `CameraTrajectoryEvaluator.evaluate` (spec
section 4.2) — the repository's own evaluation code is in
`blender_script_generator.py`, which is not among the sources.  It fails
with `InvalidTrajectoryError` when no spec has been set or the progress is
outside [0,1]; linear trajectories interpolate with look-at taking
precedence over the fixed rotation; circular trajectories place the camera
on the circle (z as height) looking at the target; custom trajectories
interpolate between sorted keyframes and fail on an empty keyframe list. -/
def evaluate (trig : Trig) (spec : Option TrajectorySpec) (progress : ℚ) :
    Except TrajErr CameraPose :=
  match spec with
  | none => .error .invalidTrajectory
  | some sp =>
    if progress < 0 ∨ 1 < progress then .error .invalidTrajectory
    else
      match sp with
      | .linear s e la fr =>
        let pos := lerpV s e progress
        match la with
        | some tgt => .ok ⟨pos, lookAtRotation trig pos tgt⟩
        | none =>
          match fr with
          | some rot => .ok ⟨pos, rot⟩
          | none => .error .invalidTrajectory
      | .circular c radius height a0 a1 la =>
        let ang := a0 + progress * (a1 - a0)
        let pos := (c.1 + radius * trig.cos ang, c.2.1 + radius * trig.sin ang,
          c.2.2 + height)
        .ok ⟨pos, lookAtRotation trig pos la⟩
      | .custom ks =>
        match sortKF ks with
        | [] => .error .invalidTrajectory
        | k :: rest => .ok (evalKeyframes k rest progress)

/-- A trig structure with all primitives zero, used to instantiate theorems
whose statements do not depend on the trig values. -/
def trigZero : Trig :=
  ⟨fun _ => 0, fun _ => 0, fun _ _ => 0, fun _ => 0⟩

/-- The standard right-handed rotation about the X axis, as in the claim's
words. -/
def Rx_std (c s : ℚ → ℚ) (θ : ℚ) : Matrix (Fin 3) (Fin 3) ℚ :=
  Matrix.of ![![1, 0, 0], ![0, c θ, -(s θ)], ![0, s θ, c θ]]

/-- The standard right-handed rotation about the Y axis. -/
def Ry_std (c s : ℚ → ℚ) (θ : ℚ) : Matrix (Fin 3) (Fin 3) ℚ :=
  Matrix.of ![![c θ, 0, s θ], ![0, 1, 0], ![-(s θ), 0, c θ]]

/-- The standard right-handed rotation about the Z axis. -/
def Rz_std (c s : ℚ → ℚ) (θ : ℚ) : Matrix (Fin 3) (Fin 3) ℚ :=
  Matrix.of ![![c θ, -(s θ), 0], ![s θ, c θ, 0], ![0, 0, 1]]

/-- `CameraTrajectory.euler_to_rotation_matrix` (camera_trajectory.py lines
87-119): build `Rx`, `Ry`, `Rz` from (pitch, yaw, roll) exactly as the
source writes the entries and return `Rz @ Ry @ Rx`.  The cosine and sine
are abstract parameters (Python's `math.cos` / `math.sin`). -/
def euler_to_rotation_matrix (c s : ℚ → ℚ) (euler_angles : ℚ × ℚ × ℚ) :
    Matrix (Fin 3) (Fin 3) ℚ :=
  let pitch := euler_angles.1
  let yaw := euler_angles.2.1
  let roll := euler_angles.2.2
  let Rx : Matrix (Fin 3) (Fin 3) ℚ :=
    Matrix.of ![![1, 0, 0], ![0, c pitch, -(s pitch)], ![0, s pitch, c pitch]]
  let Ry : Matrix (Fin 3) (Fin 3) ℚ :=
    Matrix.of ![![c yaw, 0, s yaw], ![0, 1, 0], ![-(s yaw), 0, c yaw]]
  let Rz : Matrix (Fin 3) (Fin 3) ℚ :=
    Matrix.of ![![c roll, -(s roll), 0], ![s roll, c roll, 0], ![0, 0, 1]]
  Rz * Ry * Rx

/-- Build a file (list of lines as character lists) from string literals. -/
def mkLines (ls : List String) : List (List Char) :=
  ls.map String.data

/-- A file system holding one text PLY file that declares 5 vertices but
contains only 3 vertex records (the spec's truncation example). -/
def fsTrunc : String → Option (List (List Char)) :=
  fun _ => some (mkLines ["ply", "format ascii 1.0", "element vertex 5",
    "property float x", "property float y", "property float z",
    "end_header", "0 0 0", "1 1 1", "2 2 2"])

/-- A file system holding one text PLY file whose single vertex record has
non-numeric coordinate data. -/
def fsBadNum : String → Option (List (List Char)) :=
  fun _ => some (mkLines ["element vertex 1", "end_header", "a b c"])

/-- A file system holding one well-formed single-vertex text PLY file. -/
def fsOne : String → Option (List (List Char)) :=
  fun _ => some (mkLines ["element vertex 1", "end_header", "0 0 0"])

/-- Vertex data whose coordinate columns are 32-bit floats (the usual
`property float x` PLY declaration), no colors. -/
def vF32 : PlyVertexData :=
  ⟨["x", "y", "z"], ⟨.float32, [0]⟩, ⟨.float32, [0]⟩, ⟨.float32, [0]⟩,
    ⟨.uint8, []⟩, ⟨.uint8, []⟩, ⟨.uint8, []⟩⟩

/-- Vertex data declaring 8-bit colors whose raw channel values are all 1,
so that `colors.max() > 1.0` is false. -/
def vRawColors : PlyVertexData :=
  ⟨["x", "y", "z", "red", "green", "blue"],
    ⟨.float64, [0]⟩, ⟨.float64, [0]⟩, ⟨.float64, [0]⟩,
    ⟨.uint8, [1]⟩, ⟨.uint8, [1]⟩, ⟨.uint8, [1]⟩⟩

/-- Well-formed single-vertex data with all six columns of length one. -/
def vOne : PlyVertexData :=
  ⟨["x", "y", "z"], ⟨.float64, [1]⟩, ⟨.float64, [2]⟩, ⟨.float64, [3]⟩,
    ⟨.uint8, [7]⟩, ⟨.uint8, [7]⟩, ⟨.uint8, [7]⟩⟩

theorem listMin_ne_nil {l : List ℚ} (h : l ≠ []) : ∃ m, listMin l = some m := by
  cases l with
  | nil => exact absurd rfl h
  | cons x xs => exact ⟨_, rfl⟩

theorem listMax_ne_nil {l : List ℚ} (h : l ≠ []) : ∃ m, listMax l = some m := by
  cases l with
  | nil => exact absurd rfl h
  | cons x xs => exact ⟨_, rfl⟩

theorem flattenRows_ne_nil {rows : List V3} (h : rows ≠ []) :
    flattenRows rows ≠ [] := by
  cases rows with
  | nil => exact absurd rfl h
  | cons r rs => simp [flattenRows]

theorem zip3Q_ne_nil {xs ys zs : List ℚ} (hx : xs ≠ []) (hy : ys ≠ [])
    (hz : zs ≠ []) : zip3Q xs ys zs ≠ [] := by
  cases xs with
  | nil => exact absurd rfl hx
  | cons a as_ =>
    cases ys with
    | nil => exact absurd rfl hy
    | cons b bs =>
      cases zs with
      | nil => exact absurd rfl hz
      | cons c cs => simp [zip3Q]

theorem zip3Q_map_fst : ∀ (xs ys zs : List ℚ), ys.length = xs.length →
    zs.length = xs.length → (zip3Q xs ys zs).map (fun w => w.1) = xs := by
  intro xs
  induction xs with
  | nil => intro ys zs _ _; cases ys <;> cases zs <;> rfl
  | cons x xs ih =>
    intro ys zs hy hz
    cases ys with
    | nil => simp at hy
    | cons y ys' =>
      cases zs with
      | nil => simp at hz
      | cons z zs' =>
        simp only [zip3Q, List.map_cons]
        rw [ih ys' zs' (by simpa using hy) (by simpa using hz)]

theorem zip3Q_map_snd1 : ∀ (xs ys zs : List ℚ), ys.length = xs.length →
    zs.length = xs.length → (zip3Q xs ys zs).map (fun w => w.2.1) = ys := by
  intro xs
  induction xs with
  | nil =>
    intro ys zs hy _
    have hy' : ys = [] := by simpa [List.length_eq_zero] using hy
    subst hy'
    cases zs <;> rfl
  | cons x xs ih =>
    intro ys zs hy hz
    cases ys with
    | nil => simp at hy
    | cons y ys' =>
      cases zs with
      | nil => simp at hz
      | cons z zs' =>
        simp only [zip3Q, List.map_cons]
        rw [ih ys' zs' (by simpa using hy) (by simpa using hz)]

theorem zip3Q_map_snd2 : ∀ (xs ys zs : List ℚ), ys.length = xs.length →
    zs.length = xs.length → (zip3Q xs ys zs).map (fun w => w.2.2) = zs := by
  intro xs
  induction xs with
  | nil =>
    intro ys zs _ hz
    have hz' : zs = [] := by simpa [List.length_eq_zero] using hz
    subst hz'
    cases ys <;> rfl
  | cons x xs ih =>
    intro ys zs hy hz
    cases ys with
    | nil => simp at hy
    | cons y ys' =>
      cases zs with
      | nil => simp at hz
      | cons z zs' =>
        simp only [zip3Q, List.map_cons]
        rw [ih ys' zs' (by simpa using hy) (by simpa using hz)]

theorem computeBounds_ok {xs ys zs : List ℚ} (hx : xs ≠ []) (hy : ys ≠ [])
    (hz : zs ≠ []) : ∃ b, computeBounds xs ys zs = .ok b := by
  cases xs with
  | nil => exact absurd rfl hx
  | cons a as_ =>
    cases ys with
    | nil => exact absurd rfl hy
    | cons b bs =>
      cases zs with
      | nil => exact absurd rfl hz
      | cons c cs => exact ⟨_, rfl⟩

/-- C1 counterexample: the claim requires that a load failure (for example a
nonexistent path, on which `plyfile.PlyData.read` raises) propagates to the
caller of `PLYProcessor.load_ply`; instead the method's catch-all handler
silently recovers into the non-error return value `(None, None)`. -/
theorem load_ply_silent_recovery_cex :
    load_ply (.error .fileNotFound) = (none, none) := rfl

/-- C1 (amended): `load_ply_file` in render_full_video.py raises
`FileNotFoundError` on a nonexistent path and `ValueError` on non-numeric
coordinate data, and both propagate; `PLYProcessor.load_ply` never
propagates any error — it catches every exception and returns
`(None, None)`. -/
theorem load_error_policy_amended :
    (∀ fs path, fs path = none → load_ply_file fs path = .error .fileNotFound) ∧
    (∀ e, load_ply (.error e) = (none, none)) ∧
    load_ply_file fsBadNum "points.ply" = .error .valueError := by
  refine ⟨?_, fun e => rfl, ?_⟩
  · intro fs path h
    simp [load_ply_file, h]
  · rfl

/-- C1 witness: the amended theorem applied to a file system with no files. -/
theorem load_error_policy_w :
    load_ply_file (fun _ => none) "missing.ply" = .error .fileNotFound :=
  load_error_policy_amended.1 (fun _ => none) "missing.ply" rfl

/-- C2 counterexample: a file declaring `vertex_count = 5` with only 3
vertex records does not abort with any error — `load_ply_file` returns the
partial 3-point cloud, contradicting the claim that the load aborts with
`MalformedFileError` and never returns a partial point cloud. -/
theorem truncated_vertex_block_cex :
    load_ply_file fsTrunc "frame.ply" =
      .ok (⟨.float64, [(0, 0, 0), (1, 1, 1), (2, 2, 2)]⟩, none) := by
  rfl

/-- C2 (amended): a truncated vertex block does not abort the load: the body
loop stops at the end of the file, so a declared count beyond the available
records behaves exactly like the available record count, and records with
fewer than 3 fields are skipped rather than aborting; the loader has no
`MalformedFileError` at all, and only non-numeric fields in a long-enough
record raise (`ValueError`). -/
theorem truncated_vertex_block_amended :
    (∀ hc (body : List (List Char)) n, body.length ≤ n →
      parseBody hc body n = parseBody hc body body.length) ∧
    (∀ hc l rest n, parseStep hc l = .ok none →
      parseBody hc (l :: rest) (n + 1) = parseBody hc rest n) ∧
    (∀ hc l, (pySplitChars (pyStrip l)).length < 3 → parseStep hc l = .ok none) := by
  refine ⟨?_, ?_, ?_⟩
  · intro hc body
    induction body with
    | nil => intro n _; cases n <;> rfl
    | cons l rest ih =>
      intro n hn
      cases n with
      | zero => simp at hn
      | succ m =>
        have hm : rest.length ≤ m := by simpa using hn
        show parseBody hc (l :: rest) (m + 1) = parseBody hc (l :: rest) (rest.length + 1)
        simp only [parseBody]
        rw [ih m hm, ih rest.length le_rfl]
  · intro hc l rest n h
    simp only [parseBody]
    rw [h]
  · intro hc l h
    simp only [parseStep]
    rw [if_neg (by omega)]

/-- C2 witness: the amended theorem applied to a one-record body with a
declared count of 5. -/
theorem truncated_vertex_block_w :
    parseBody false (mkLines ["0 0 0"]) 5 = parseBody false (mkLines ["0 0 0"]) 1 := by
  have h := truncated_vertex_block_amended.1 false (mkLines ["0 0 0"]) 5 (by decide)
  simpa using h

/-- C3 (confirmed, spec-modelled): for every progress outside [0,1] and
whenever no trajectory spec has been set, `evaluate` fails with
`InvalidTrajectoryError` instead of returning a pose. -/
theorem evaluate_guard (trig : Trig) (spec : Option TrajectorySpec) (p : ℚ)
    (h : spec = none ∨ p < 0 ∨ 1 < p) :
    evaluate trig spec p = .error .invalidTrajectory := by
  cases spec with
  | none => rfl
  | some sp =>
    rcases h with h | h
    · exact absurd h (by simp)
    · simp only [evaluate]
      rw [if_pos h]

/-- C3 witness: `evaluate(1.5)` on a set linear trajectory fails. -/
theorem evaluate_guard_w :
    evaluate trigZero (some (.linear (0, 0, 5) (5, 0, 5) none none)) (3 / 2) =
      .error .invalidTrajectory :=
  evaluate_guard trigZero _ (3 / 2) (Or.inr (Or.inr (by norm_num)))

/-- C4 counterexample: a file declaring colors whose raw channel values are
the 8-bit triple (1,1,1) makes `colors.max() > 1.0` false, so
`PLYProcessor.load_ply` emits the colors unnormalized — (1,1,1) instead of
the (1/255, 1/255, 1/255) the claim demands for every raw triple. -/
theorem color_normalization_cex :
    load_ply (.ok vRawColors) =
      (some ⟨.float64, [(0, 0, 0)]⟩, some ⟨.uint8, [(1, 1, 1)]⟩) ∧
    ¬ ((1 : ℚ), (1 : ℚ), (1 : ℚ)) = ((1 : ℚ) / 255, (1 : ℚ) / 255, (1 : ℚ) / 255) := by
  constructor
  · rfl
  · simp only [Prod.mk.injEq, not_and]
    intro h
    exact absurd h (by norm_num)

/-- C4 (amended): the text loader `load_ply_file` normalizes
unconditionally — a record with declared colors and at least 6 fields whose
channels parse as integers r, g, b always yields (r/255, g/255, b/255) —
while `PLYProcessor.load_ply` divides by 255.0 only when the maximum raw
channel value exceeds 1.0 (then with a float32 cast) and otherwise returns
the raw values unchanged. -/
theorem color_normalization_amended :
    (∀ (l : List Char) (x y z : ℚ) (r g b : Int),
      6 ≤ (pySplitChars (pyStrip l)).length →
      pyFloat ((pySplitChars (pyStrip l)).getD 0 []) = some x →
      pyFloat ((pySplitChars (pyStrip l)).getD 1 []) = some y →
      pyFloat ((pySplitChars (pyStrip l)).getD 2 []) = some z →
      pyInt ((pySplitChars (pyStrip l)).getD 3 []) = some r →
      pyInt ((pySplitChars (pyStrip l)).getD 4 []) = some g →
      pyInt ((pySplitChars (pyStrip l)).getD 5 []) = some b →
      parseStep true l =
        .ok (some ((x, y, z), some ((r : ℚ) / 255, (g : ℚ) / 255, (b : ℚ) / 255)))) ∧
    (∀ v m, hasColorProps v = true →
      arrMax (columnStack3 v.red v.green v.blue) = some m →
      load_ply (.ok v) = (some (columnStack3 v.x v.y v.z),
        some (if 1 < m then normalizeColors (columnStack3 v.red v.green v.blue)
          else columnStack3 v.red v.green v.blue))) := by
  constructor
  · intro l x y z r g b h6 hx hy hz hr hg hb
    have h3 : 3 ≤ (pySplitChars (pyStrip l)).length := by omega
    simp only [List.getD, List.get?_eq_getElem?] at hx hy hz hr hg hb
    simp [parseStep, h3, h6, hx, hy, hz, hr, hg, hb]
  · intro v m hcv hm
    by_cases h1 : 1 < m <;> simp [load_ply, hcv, hm, h1]

/-- C4 witness: the amended theorem applied to the record "1 2 3 255 0 128". -/
theorem color_normalization_w :
    parseStep true ("1 2 3 255 0 128".data) =
      .ok (some ((1, 2, 3), some (((255 : Int) : ℚ) / 255, ((0 : Int) : ℚ) / 255,
        ((128 : Int) : ℚ) / 255))) :=
  color_normalization_amended.1 "1 2 3 255 0 128".data 1 2 3 255 0 128
    (by decide) (by decide) (by decide) (by decide) (by decide) (by decide) (by decide)

/-- C5 counterexample: a file whose coordinate properties are 32-bit floats
(the common `property float x` declaration) makes `PLYProcessor.load_ply`
return a float32 position array, not the claimed 64-bit one. -/
theorem dtype_cex :
    load_ply (.ok vF32) = (some ⟨.float32, [(0, 0, 0)]⟩, none) ∧
    Dtype.float32 ≠ Dtype.float64 := by
  constructor
  · rfl
  · decide

/-- C5 (amended): the text loader `load_ply_file` always returns float64
position and color arrays (the numpy default for Python float lists), while
`PLYProcessor.load_ply` keeps the promoted source dtype for positions. -/
theorem dtype_amended :
    (∀ fs path pts copt, load_ply_file fs path = .ok (pts, copt) →
      pts.dtype = .float64 ∧ ∀ c, copt = some c → c.dtype = .float64) ∧
    (∀ v pts copt, load_ply (.ok v) = (some pts, copt) →
      pts.dtype = promote (promote v.x.dtype v.y.dtype) v.z.dtype) := by
  constructor
  · intro fs path pts copt h
    cases hfs : fs path with
    | none => simp only [load_ply_file, hfs] at h; exact Except.noConfusion h
    | some lines =>
      simp only [load_ply_file, hfs] at h
      cases hs : scanHeader lines with
      | error e => simp only [hs] at h; exact Except.noConfusion h
      | ok t =>
        obtain ⟨he, vc, hc⟩ := t
        simp only [hs] at h
        cases hb : parseBody hc (lines.drop he) vc.toNat with
        | error e => simp only [hb] at h; exact Except.noConfusion h
        | ok pc =>
          obtain ⟨ps, cs⟩ := pc
          simp only [hb, Except.ok.injEq, Prod.mk.injEq] at h
          obtain ⟨h1, h2⟩ := h
          constructor
          · rw [← h1]
          · intro c hc2
            rw [← h2] at hc2
            by_cases hce : cs.isEmpty
            · rw [if_pos hce] at hc2; exact absurd hc2 (by simp)
            · rw [if_neg hce] at hc2
              simp only [Option.some.injEq] at hc2
              rw [← hc2]
  · intro v pts copt h
    simp only [load_ply] at h
    by_cases hcv : hasColorProps v
    · rw [if_pos hcv] at h
      cases hmx : arrMax (columnStack3 v.red v.green v.blue) with
      | none =>
        simp only [hmx, Prod.mk.injEq] at h
        exact Option.noConfusion h.1
      | some m =>
        simp only [hmx] at h
        by_cases h1 : 1 < m
        · rw [if_pos h1] at h
          simp only [Prod.mk.injEq, Option.some.injEq] at h
          rw [← h.1]; rfl
        · rw [if_neg h1] at h
          simp only [Prod.mk.injEq, Option.some.injEq] at h
          rw [← h.1]; rfl
    · rw [if_neg hcv] at h
      simp only [Prod.mk.injEq, Option.some.injEq] at h
      rw [← h.1]; rfl

/-- C5 witness: the amended theorem applied to a concrete successful text
load. -/
theorem dtype_w :
    load_ply_file fsOne "f.ply" = .ok (⟨.float64, [(0, 0, 0)]⟩, none) ∧
    (⟨Dtype.float64, [((0 : ℚ), (0 : ℚ), (0 : ℚ))]⟩ : NpArray).dtype = .float64 :=
  ⟨by rfl, (dtype_amended.1 fsOne "f.ply" ⟨.float64, [(0, 0, 0)]⟩ none (by rfl)).1⟩

/-- C6 (confirmed): `get_ply_info` never raises — whenever anything inside
its `try` block fails (missing file, unparsable file, empty vertex element,
failing stat), it returns the zeroed/empty info record; the handler also
logs a diagnostic, which has no observable effect modelled here. -/
theorem get_ply_info_never_raises (path : String)
    (read : Except PyErr PlyVertexData) (stat : Except PyErr Nat) (e : PyErr)
    (h : innerInfo path read stat = .error e) :
    get_ply_info path read stat = ⟨path, 0, 0, false, false, [], none⟩ := by
  simp only [get_ply_info, h]
  rfl

/-- C6 witness: the theorem applied to a failing read. -/
theorem get_ply_info_never_raises_w :
    get_ply_info "a.ply" (.error .fileNotFound) (.ok 7) =
      ⟨"a.ply", 0, 0, false, false, [], none⟩ :=
  get_ply_info_never_raises "a.ply" (.error .fileNotFound) (.ok 7) .fileNotFound rfl

/-- C7 (confirmed): for vertex data with equally long nonempty columns (what
plyfile delivers for a valid file), the bounds reported by `get_ply_info`
equal — exactly, in the rational model — the bounds computed from the
position array returned by `load_ply` on the same data. -/
theorem get_info_load_bounds_agree (v : PlyVertexData) (path : String) (sz : Nat)
    (hx : v.x.data ≠ [])
    (hy : v.y.data.length = v.x.data.length)
    (hz : v.z.data.length = v.x.data.length)
    (hr : v.red.data.length = v.x.data.length)
    (hg : v.green.data.length = v.x.data.length)
    (hb : v.blue.data.length = v.x.data.length) :
    ∃ (b : Bounds) (pts : NpArray) (copt : Option NpArray),
      load_ply (.ok v) = (some pts, copt) ∧
      (get_ply_info path (.ok v) (.ok sz)).bounds = some b ∧
      boundsFromPositions pts.rows = some b := by
  have hxpos : 0 < v.x.data.length := List.length_pos.mpr hx
  have hyne : v.y.data ≠ [] := List.length_pos.mp (hy ▸ hxpos)
  have hzne : v.z.data ≠ [] := List.length_pos.mp (hz ▸ hxpos)
  have hrne : v.red.data ≠ [] := List.length_pos.mp (hr ▸ hxpos)
  have hgne : v.green.data ≠ [] := List.length_pos.mp (hg ▸ hxpos)
  have hbne : v.blue.data ≠ [] := List.length_pos.mp (hb ▸ hxpos)
  obtain ⟨b, hcb⟩ := computeBounds_ok hx hyne hzne
  have hinfo : (get_ply_info path (.ok v) (.ok sz)).bounds = some b := by
    simp only [get_ply_info, innerInfo, hcb]
  have hbp : boundsFromPositions (columnStack3 v.x v.y v.z).rows = some b := by
    simp only [boundsFromPositions, columnStack3]
    rw [zip3Q_map_fst v.x.data v.y.data v.z.data hy hz,
      zip3Q_map_snd1 v.x.data v.y.data v.z.data hy hz,
      zip3Q_map_snd2 v.x.data v.y.data v.z.data hy hz, hcb]
  have hload : ∃ copt, load_ply (.ok v) = (some (columnStack3 v.x v.y v.z), copt) := by
    by_cases hcv : hasColorProps v
    · obtain ⟨m, hm⟩ : ∃ m, arrMax (columnStack3 v.red v.green v.blue) = some m :=
        listMax_ne_nil (flattenRows_ne_nil (zip3Q_ne_nil hrne hgne hbne))
      by_cases h1 : 1 < m
      · exact ⟨some (normalizeColors (columnStack3 v.red v.green v.blue)),
          by simp [load_ply, hcv, hm, h1]⟩
      · exact ⟨some (columnStack3 v.red v.green v.blue),
          by simp [load_ply, hcv, hm, h1]⟩
    · exact ⟨none, by simp [load_ply, hcv]⟩
  obtain ⟨copt, hload⟩ := hload
  exact ⟨b, columnStack3 v.x v.y v.z, copt, hload, hinfo, hbp⟩

/-- C7 witness: the theorem applied to concrete one-vertex data. -/
theorem get_info_load_bounds_agree_w :
    ∃ (b : Bounds) (pts : NpArray) (copt : Option NpArray),
      load_ply (.ok vOne) = (some pts, copt) ∧
      (get_ply_info "a.ply" (.ok vOne) (.ok 9)).bounds = some b ∧
      boundsFromPositions pts.rows = some b :=
  get_info_load_bounds_agree vOne "a.ply" 9 (by decide) (by decide) (by decide)
    (by decide) (by decide) (by decide)

/-- C8 (confirmed): `euler_to_rotation_matrix` composes the three axis
rotations in the fixed order Rz * Ry * Rx, where `Rx_std`, `Ry_std` and
`Rz_std` are the standard right-handed axis rotation matrices (pitch about
X, yaw about Y, roll about Z). -/
theorem euler_matches_standard (c s : ℚ → ℚ) (pitch yaw roll : ℚ) :
    euler_to_rotation_matrix c s (pitch, yaw, roll) =
      Rz_std c s roll * Ry_std c s yaw * Rx_std c s pitch := rfl

/-- C9 counterexample: after `set_trajectory("circular")` followed by
`set_trajectory("linear")` (defaults), `get_info` still exposes the
circular-only parameter `radius` (value 5.0) while the active type is
"linear" — the parameter dictionary is updated, never replaced, so the
state is not independent of which variants were set earlier. -/
theorem get_info_retains_stale_cex :
    (traj_get_info ((set_trajectory ((set_trajectory initState "circular" {}).1)
        "linear" {}).1)).2 PKey.radius = some (PVal.num 5) ∧
    (traj_get_info ((set_trajectory ((set_trajectory initState "circular" {}).1)
        "linear" {}).1)).1 = some "linear" := by
  constructor
  · rfl
  · rfl

/-- C9 (amended): after any `set_trajectory("linear", ...)` call exactly the
type "linear" is active, and the parameters not applicable to the linear
variant are ignored by the call — the dictionary entries for the
circular-only and custom-only keys are left exactly as they were, so
`get_info` exposes the accumulated union of all variants ever set rather
than only the active variant's parameters. -/
theorem set_trajectory_one_active_amended :
    (∀ st kw, ((set_trajectory st "linear" kw).1).trajectory_type = some "linear") ∧
    (∀ st kw k, (k = PKey.center ∨ k = PKey.radius ∨ k = PKey.height ∨
        k = PKey.start_angle ∨ k = PKey.end_angle ∨ k = PKey.keyframes) →
      ((set_trajectory st "linear" kw).1).trajectory_params k =
        st.trajectory_params k) := by
  constructor
  · intro st kw; rfl
  · intro st kw k hk
    rcases hk with rfl | rfl | rfl | rfl | rfl | rfl <;> rfl

/-- C9 witness: the amended theorem applied to the radius key after a
circular-then-linear call sequence. -/
theorem set_trajectory_one_active_w :
    ((set_trajectory ((set_trajectory initState "circular" {}).1) "linear" {}).1).trajectory_params
        PKey.radius =
      ((set_trajectory initState "circular" {}).1).trajectory_params PKey.radius :=
  set_trajectory_one_active_amended.2 ((set_trajectory initState "circular" {}).1) {}
    PKey.radius (Or.inr (Or.inl rfl))

/-- C10 (confirmed): for every trajectory type other than "linear",
"circular" and "custom", `set_trajectory` raises `ValueError` after having
already assigned the unknown string to `trajectory_type`; the resulting
object state carries the invalid type while `trajectory_params` is exactly
what it was before the call. -/
theorem set_trajectory_unknown_mutates (st : TrajState) (ty : String) (kw : Kwargs)
    (h1 : ty ≠ "linear") (h2 : ty ≠ "circular") (h3 : ty ≠ "custom") :
    set_trajectory st ty kw = (⟨some ty, st.trajectory_params⟩, some PyErr.valueError) := by
  simp [set_trajectory, h1, h2, h3]

/-- C10 witness: the theorem applied to the unknown type "spiral". -/
theorem set_trajectory_unknown_mutates_w :
    set_trajectory initState "spiral" {} =
      (⟨some "spiral", initState.trajectory_params⟩, some PyErr.valueError) :=
  set_trajectory_unknown_mutates initState "spiral" {} (by decide) (by decide) (by decide)
